import Mathlib

/-!
Verification of the message-routing listener installed by `Proxy.start`
(`apps/extension/src/provider/Proxy.ts`) of the namada-interface repository.

The listener receives window message events, filters non-request traffic,
gates non-bootstrap methods on an externally stored list of approved
origins, dispatches the named method on the `Namada` capability object,
and posts back a correlated response carrying either the resolved value
or the raised error.

The embedding below is a direct transcription of that listener body:

* `JsVal` stands for the dynamic JavaScript values flowing through the
  proxy (arguments, results, thrown values); `JsVal.errObj m` is an
  `Error` object whose `message` is `m`, as produced by `new Error(m)`.
* The result of the asynchronous `approvedOriginsStore.get` call is
  passed in as `Except JsVal (Option (List String))`: `Except.error`
  is a rejected promise, `Except.ok none` is a resolution to
  `undefined`, `Except.ok (some l)` a resolution to the list `l`.
* `HandleOutput` records everything observable about one run of the
  listener: the list of responses posted (in order), the value of an
  uncaught rejection escaping the listener (if any), and the number of
  `approvedOriginsStore.get` calls performed.
-/

inductive JsVal : Type where
  | undef : JsVal
  | boolean : Bool → JsVal
  | num : Int → JsVal
  | str : String → JsVal
  | arr : List JsVal → JsVal
  | errObj : String → JsVal

/-- The two tags of `ProxyRequestTypes` in `provider/types.ts`. -/
inductive ProxyRequestTypes : Type where
  | Request : ProxyRequestTypes
  | Response : ProxyRequestTypes
deriving DecidableEq

/-- A well-formed proxy request body: `{type: Request, id, method, args}`. -/
structure ProxyRequest where
  id : String
  method : String
  args : List JsVal

/-- The `data` carried by an inbound message event, as the listener's guard
sees it: either a body tagged with the request tag, or anything whose
`type` field is missing or differs from the request tag. -/
inductive InboundData : Type where
  | req : ProxyRequest → InboundData
  | nonRequest : Option String → InboundData

/-- An inbound `MessageEvent`: its `data` (possibly null) and its `origin`. -/
structure MessageEvent where
  data : Option InboundData
  origin : String

/-- The `result` object of a posted response. The source constructs either
the literal `{return: result}` or the literal `{error: e}`, so each field
is optional; `ret` stands for the reserved word `return`. -/
structure ProxyResult where
  ret : Option JsVal
  error : Option JsVal

/-- A posted `ProxyRequestResponse`: `{type, id, result}`. -/
structure ProxyRequestResponse where
  type : ProxyRequestTypes
  id : String
  result : ProxyResult

/-- An own property of the `Namada` capability object: either a callable
method (resolving or rejecting with a `JsVal`) or a non-callable value. -/
inductive NamadaEntry : Type where
  | fn : (List JsVal → Except JsVal JsVal) → NamadaEntry
  | nonFn : JsVal → NamadaEntry

/-- The capability object, read by dynamic property lookup `namada[method]`:
`none` when no property of that name exists. -/
def Namada : Type := String → Option NamadaEntry

/-- Everything observable about one run of the listener on one event. -/
structure HandleOutput where
  emitted : List ProxyRequestResponse
  uncaught : Option JsVal
  reads : Nat

/-- The `try { ... } catch (e) { ... }` block of the listener: look up
`namada[method]`; if it is missing or not a function, throw
`new Error(`${message.method} not found!`)`; otherwise invoke it with
`args` and await. Either way, post exactly one response carrying the
request's `id` and either `{return: result}` or `{error: e}`. -/
def dispatch (namada : Namada) (msg : ProxyRequest) : List ProxyRequestResponse :=
  match namada msg.method with
  | some (NamadaEntry.fn f) =>
    match f msg.args with
    | Except.ok v =>
      [⟨ProxyRequestTypes.Response, msg.id, ⟨some v, none⟩⟩]
    | Except.error e =>
      [⟨ProxyRequestTypes.Response, msg.id, ⟨none, some e⟩⟩]
  | some (NamadaEntry.nonFn _) =>
    [⟨ProxyRequestTypes.Response, msg.id,
      ⟨none, some (JsVal.errObj (msg.method ++ " not found!"))⟩⟩]
  | none =>
    [⟨ProxyRequestTypes.Response, msg.id,
      ⟨none, some (JsVal.errObj (msg.method ++ " not found!"))⟩⟩]

/-- The listener body installed by `Proxy.start`, run on one message event.
`storeGet` is the outcome of the one `approvedOriginsStore.get` call this
run would perform (the call happens only on the non-bootstrap path, and
outside the `try`, so its rejection escapes uncaught). -/
def handleMessage (namada : Namada)
    (storeGet : Except JsVal (Option (List String)))
    (ev : MessageEvent) : HandleOutput :=
  match ev.data with
  | none => ⟨[], none, 0⟩
  | some (InboundData.nonRequest _) => ⟨[], none, 0⟩
  | some (InboundData.req msg) =>
    if msg.method ≠ "connect" ∧ msg.method ≠ "isConnected" then
      match storeGet with
      | Except.error e => ⟨[], some e, 1⟩
      | Except.ok got =>
        let approvedOrigins := got.getD []
        if approvedOrigins.contains ev.origin then
          ⟨dispatch namada msg, none, 1⟩
        else
          ⟨[], none, 1⟩
    else
      ⟨dispatch namada msg, none, 0⟩

/-- Several message events handled in sequence, each with the outcome of
its own `approvedOriginsStore.get` call (the store can change between
events, so each event is paired with its own snapshot). -/
def processSeq (namada : Namada) :
    List (Except JsVal (Option (List String)) × MessageEvent) → List HandleOutput
  | [] => []
  | (s, ev) :: rest => handleMessage namada s ev :: processSeq namada rest

/-! A concrete capability object used by the witnesses. -/

/-- A small concrete capability object: `connect` and `isConnected`
resolve, `queryBalance` resolves with a token/amount pair list,
`failingOp` rejects, `notAFunction` is a non-callable property. -/
def namadaTest : Namada := fun m =>
  if m = "connect" then
    some (NamadaEntry.fn (fun _ => Except.ok JsVal.undef))
  else if m = "isConnected" then
    some (NamadaEntry.fn (fun _ => Except.ok (JsVal.boolean true)))
  else if m = "queryBalance" then
    some (NamadaEntry.fn (fun _ =>
      Except.ok (JsVal.arr [JsVal.arr [JsVal.str "tok1", JsVal.str "100"]])))
  else if m = "failingOp" then
    some (NamadaEntry.fn (fun _ => Except.error (JsVal.str "boom")))
  else if m = "notAFunction" then
    some (NamadaEntry.nonFn (JsVal.num 7))
  else
    none

/-! Theorems. -/

/-- Any response produced by the `try/catch` dispatch block has exactly one
of the `return` and `error` fields populated. -/
theorem mem_dispatch_exactly_one (namada : Namada) (msg : ProxyRequest)
    (r : ProxyRequestResponse) (hr : r ∈ dispatch namada msg) :
    (r.result.ret.isSome = true ∧ r.result.error = none) ∨
    (r.result.ret = none ∧ r.result.error.isSome = true) := by
  cases hn : namada msg.method with
  | none =>
    simp [dispatch, hn] at hr
    simp [hr]
  | some entry =>
    cases entry with
    | fn f =>
      cases hf : f msg.args with
      | ok v =>
        simp [dispatch, hn, hf] at hr
        simp [hr]
      | error e =>
        simp [dispatch, hn, hf] at hr
        simp [hr]
    | nonFn v =>
      simp [dispatch, hn] at hr
      simp [hr]

/-- Claim C1: a valid request from an approved origin whose method exists on
the capability object and resolves successfully produces exactly one
response, with the request's `id` and `result.return` equal to the resolved
value, and nothing escapes the listener. -/
theorem admitted_success_single_response (namada : Namada)
    (approved : List String) (ev : MessageEvent) (msg : ProxyRequest)
    (f : List JsVal → Except JsVal JsVal) (v : JsVal)
    (hdata : ev.data = some (InboundData.req msg))
    (happ : approved.contains ev.origin = true)
    (hfn : namada msg.method = some (NamadaEntry.fn f))
    (hok : f msg.args = Except.ok v) :
    (handleMessage namada (Except.ok (some approved)) ev).emitted =
      [⟨ProxyRequestTypes.Response, msg.id, ⟨some v, none⟩⟩] ∧
    (handleMessage namada (Except.ok (some approved)) ev).uncaught = none := by
  have hdisp : dispatch namada msg =
      [⟨ProxyRequestTypes.Response, msg.id, ⟨some v, none⟩⟩] := by
    simp [dispatch, hfn, hok]
  have hmem : ev.origin ∈ approved := by simpa using happ
  by_cases hb : msg.method ≠ "connect" ∧ msg.method ≠ "isConnected"
  · constructor <;> simp [handleMessage, hdata, hb, hmem, hdisp]
  · constructor <;> simp [handleMessage, hdata, hb, hdisp]

/-- Claim C1 witness: an approved origin calling `queryBalance` receives
exactly the resolved token list back, under the request's id. -/
theorem admitted_success_single_response_witness :
    (handleMessage namadaTest (Except.ok (some ["https://app.test"]))
        ⟨some (InboundData.req ⟨"1", "queryBalance", [JsVal.str "addr1"]⟩),
          "https://app.test"⟩).emitted =
      [⟨ProxyRequestTypes.Response, "1",
        ⟨some (JsVal.arr [JsVal.arr [JsVal.str "tok1", JsVal.str "100"]]), none⟩⟩] ∧
    (handleMessage namadaTest (Except.ok (some ["https://app.test"]))
        ⟨some (InboundData.req ⟨"1", "queryBalance", [JsVal.str "addr1"]⟩),
          "https://app.test"⟩).uncaught = none :=
  admitted_success_single_response namadaTest ["https://app.test"]
    ⟨some (InboundData.req ⟨"1", "queryBalance", [JsVal.str "addr1"]⟩), "https://app.test"⟩
    ⟨"1", "queryBalance", [JsVal.str "addr1"]⟩
    (fun _ => Except.ok (JsVal.arr [JsVal.arr [JsVal.str "tok1", JsVal.str "100"]]))
    (JsVal.arr [JsVal.arr [JsVal.str "tok1", JsVal.str "100"]])
    rfl (by decide) rfl rfl

/-- Claim C2: a request from an origin outside the approval set, with a
method that is neither `connect` nor `isConnected`, produces no response at
all: the listener returns before the `try` block, emitting nothing, with no
uncaught error, after its single store read. -/
theorem unapproved_nonbootstrap_silently_dropped (namada : Namada)
    (got : Option (List String)) (ev : MessageEvent) (msg : ProxyRequest)
    (hdata : ev.data = some (InboundData.req msg))
    (hc : msg.method ≠ "connect") (hic : msg.method ≠ "isConnected")
    (horig : (got.getD []).contains ev.origin = false) :
    handleMessage namada (Except.ok got) ev = ⟨[], none, 1⟩ := by
  have hmem : ev.origin ∉ got.getD [] := by simpa using horig
  simp [handleMessage, hdata, hc, hic, hmem]

/-- Claim C2 witness: `signTx` from an unapproved origin is dropped with no
output whatsoever. -/
theorem unapproved_nonbootstrap_silently_dropped_witness :
    handleMessage namadaTest (Except.ok (some ["https://app.test"]))
        ⟨some (InboundData.req ⟨"3", "signTx", []⟩), "https://evil.test"⟩ =
      ⟨[], none, 1⟩ :=
  unapproved_nonbootstrap_silently_dropped namadaTest (some ["https://app.test"])
    ⟨some (InboundData.req ⟨"3", "signTx", []⟩), "https://evil.test"⟩
    ⟨"3", "signTx", []⟩ rfl (by decide) (by decide) (by decide)

/-- Claim C4: a message event whose data is null, or whose data is not
tagged as a request (missing or different `type`), is ignored: no response,
no uncaught error, and no store read. -/
theorem malformed_message_ignored (namada : Namada)
    (storeGet : Except JsVal (Option (List String))) (ev : MessageEvent)
    (h : ev.data = none ∨ ∃ t, ev.data = some (InboundData.nonRequest t)) :
    handleMessage namada storeGet ev = ⟨[], none, 0⟩ := by
  rcases h with h | ⟨t, h⟩ <;> simp [handleMessage, h]

/-- Claim C4 witness: a null-data event is ignored even while the store get
would have rejected. -/
theorem malformed_message_ignored_witness :
    handleMessage namadaTest (Except.error (JsVal.str "storeDown"))
        ⟨none, "https://app.test"⟩ = ⟨[], none, 0⟩ :=
  malformed_message_ignored namadaTest (Except.error (JsVal.str "storeDown"))
    ⟨none, "https://app.test"⟩ (Or.inl rfl)

/-- Claim C9: when the store get resolves to `undefined`, the `|| []`
fallback makes the approval set empty, so every non-bootstrap request, from
any origin, is silently dropped. -/
theorem store_undefined_treated_as_empty (namada : Namada)
    (ev : MessageEvent) (msg : ProxyRequest)
    (hdata : ev.data = some (InboundData.req msg))
    (hc : msg.method ≠ "connect") (hic : msg.method ≠ "isConnected") :
    handleMessage namada (Except.ok none) ev = ⟨[], none, 1⟩ := by
  simp [handleMessage, hdata, hc, hic]

/-- Claim C9 witness: with no approved-origins entry in the store,
`queryBalance` gets no response. -/
theorem store_undefined_treated_as_empty_witness :
    handleMessage namadaTest (Except.ok none)
        ⟨some (InboundData.req ⟨"9", "queryBalance", []⟩), "https://app.test"⟩ =
      ⟨[], none, 1⟩ :=
  store_undefined_treated_as_empty namadaTest
    ⟨some (InboundData.req ⟨"9", "queryBalance", []⟩), "https://app.test"⟩
    ⟨"9", "queryBalance", []⟩ rfl (by decide) (by decide)

/-- Claim C10: when the store get rejects on the non-bootstrap path, the
rejection happens outside the `try/catch`, so no response is emitted and
the rejection escapes the listener uncaught. -/
theorem store_rejection_uncaught_no_response (namada : Namada)
    (e : JsVal) (ev : MessageEvent) (msg : ProxyRequest)
    (hdata : ev.data = some (InboundData.req msg))
    (hc : msg.method ≠ "connect") (hic : msg.method ≠ "isConnected") :
    handleMessage namada (Except.error e) ev = ⟨[], some e, 1⟩ := by
  simp [handleMessage, hdata, hc, hic]

/-- Claim C10 witness: a failing store get on a `signTx` request yields no
response and the failure value escapes. -/
theorem store_rejection_uncaught_no_response_witness :
    handleMessage namadaTest (Except.error (JsVal.str "storeDown"))
        ⟨some (InboundData.req ⟨"10", "signTx", []⟩), "https://app.test"⟩ =
      ⟨[], some (JsVal.str "storeDown"), 1⟩ :=
  store_rejection_uncaught_no_response namadaTest (JsVal.str "storeDown")
    ⟨some (InboundData.req ⟨"10", "signTx", []⟩), "https://app.test"⟩
    ⟨"10", "signTx", []⟩ rfl (by decide) (by decide)

/-- Claim C7: when the invoked capability method rejects, the raised value
itself — unmodified — becomes `result.error` of the single response emitted
under the request's id. -/
theorem capability_failure_error_forwarded_verbatim (namada : Namada)
    (approved : List String) (ev : MessageEvent) (msg : ProxyRequest)
    (f : List JsVal → Except JsVal JsVal) (e : JsVal)
    (hdata : ev.data = some (InboundData.req msg))
    (happ : approved.contains ev.origin = true)
    (hfn : namada msg.method = some (NamadaEntry.fn f))
    (herr : f msg.args = Except.error e) :
    (handleMessage namada (Except.ok (some approved)) ev).emitted =
      [⟨ProxyRequestTypes.Response, msg.id, ⟨none, some e⟩⟩] ∧
    (handleMessage namada (Except.ok (some approved)) ev).uncaught = none := by
  have hdisp : dispatch namada msg =
      [⟨ProxyRequestTypes.Response, msg.id, ⟨none, some e⟩⟩] := by
    simp [dispatch, hfn, herr]
  have hmem : ev.origin ∈ approved := by simpa using happ
  by_cases hb : msg.method ≠ "connect" ∧ msg.method ≠ "isConnected"
  · constructor <;> simp [handleMessage, hdata, hb, hmem, hdisp]
  · constructor <;> simp [handleMessage, hdata, hb, hdisp]

/-- Claim C7 witness: the `failingOp` rejection value `"boom"` is placed in
`result.error` exactly as raised. -/
theorem capability_failure_error_forwarded_verbatim_witness :
    (handleMessage namadaTest (Except.ok (some ["https://app.test"]))
        ⟨some (InboundData.req ⟨"7", "failingOp", []⟩), "https://app.test"⟩).emitted =
      [⟨ProxyRequestTypes.Response, "7", ⟨none, some (JsVal.str "boom")⟩⟩] ∧
    (handleMessage namadaTest (Except.ok (some ["https://app.test"]))
        ⟨some (InboundData.req ⟨"7", "failingOp", []⟩), "https://app.test"⟩).uncaught =
      none :=
  capability_failure_error_forwarded_verbatim namadaTest ["https://app.test"]
    ⟨some (InboundData.req ⟨"7", "failingOp", []⟩), "https://app.test"⟩
    ⟨"7", "failingOp", []⟩ (fun _ => Except.error (JsVal.str "boom"))
    (JsVal.str "boom") rfl (by decide) rfl rfl

/-- Claim C3: an admitted (or bootstrap-exempt) request whose method is
missing from the capability object, or present but not callable, gets
exactly one response under its id whose `result.error` is an `Error` whose
message contains the method name, and whose `return` field is absent. -/
theorem unknown_method_error_response (namada : Namada)
    (storeGet : Except JsVal (Option (List String)))
    (ev : MessageEvent) (msg : ProxyRequest)
    (hdata : ev.data = some (InboundData.req msg))
    (hadm : (msg.method = "connect" ∨ msg.method = "isConnected") ∨
      ∃ got, storeGet = Except.ok got ∧ (got.getD []).contains ev.origin = true)
    (hmiss : namada msg.method = none ∨
      ∃ v, namada msg.method = some (NamadaEntry.nonFn v)) :
    ∃ emsg, (handleMessage namada storeGet ev).emitted =
        [⟨ProxyRequestTypes.Response, msg.id, ⟨none, some (JsVal.errObj emsg)⟩⟩] ∧
      (∃ a b, emsg = a ++ msg.method ++ b) ∧
      (handleMessage namada storeGet ev).uncaught = none := by
  have hdisp : dispatch namada msg =
      [⟨ProxyRequestTypes.Response, msg.id,
        ⟨none, some (JsVal.errObj (msg.method ++ " not found!"))⟩⟩] := by
    rcases hmiss with h | ⟨v, h⟩ <;> simp [dispatch, h]
  refine ⟨msg.method ++ " not found!", ?_, ⟨"", " not found!", by simp⟩, ?_⟩ <;>
    by_cases hb : msg.method ≠ "connect" ∧ msg.method ≠ "isConnected"
  · rcases hadm with hboot | ⟨got, hsg, happ⟩
    · exact absurd hboot (by simpa [not_or] using hb)
    · have hmem : ev.origin ∈ got.getD [] := by simpa using happ
      subst hsg
      simp [handleMessage, hdata, hb, hmem, hdisp]
  · simp [handleMessage, hdata, hb, hdisp]
  · rcases hadm with hboot | ⟨got, hsg, happ⟩
    · exact absurd hboot (by simpa [not_or] using hb)
    · have hmem : ev.origin ∈ got.getD [] := by simpa using happ
      subst hsg
      simp [handleMessage, hdata, hb, hmem, hdisp]
  · simp [handleMessage, hdata, hb, hdisp]

/-- Claim C3 witness: `doesNotExist` from an approved origin yields one
error response whose message contains the method name, with no `return`. -/
theorem unknown_method_error_response_witness :
    ∃ emsg, (handleMessage namadaTest (Except.ok (some ["https://app.test"]))
        ⟨some (InboundData.req ⟨"2", "doesNotExist", []⟩), "https://app.test"⟩).emitted =
        [⟨ProxyRequestTypes.Response, "2", ⟨none, some (JsVal.errObj emsg)⟩⟩] ∧
      (∃ a b, emsg = a ++ "doesNotExist" ++ b) ∧
      (handleMessage namadaTest (Except.ok (some ["https://app.test"]))
        ⟨some (InboundData.req ⟨"2", "doesNotExist", []⟩), "https://app.test"⟩).uncaught =
        none :=
  unknown_method_error_response namadaTest (Except.ok (some ["https://app.test"]))
    ⟨some (InboundData.req ⟨"2", "doesNotExist", []⟩), "https://app.test"⟩
    ⟨"2", "doesNotExist", []⟩ rfl
    (Or.inr ⟨some ["https://app.test"], rfl, by decide⟩) (Or.inl rfl)

/-- Claim C5: `connect` and `isConnected` are exactly the two methods that
bypass the admission gate. For either of them the listener performs no
store read and produces the dispatch output whatever the store would have
answered (even a rejection or a missing entry); for any other method the
listener performs the store read, and an origin outside the resulting set
gets nothing. -/
theorem bootstrap_methods_bypass_gate (namada : Namada)
    (ev : MessageEvent) (msg : ProxyRequest)
    (hdata : ev.data = some (InboundData.req msg)) :
    ((msg.method = "connect" ∨ msg.method = "isConnected") →
      ∀ storeGet, handleMessage namada storeGet ev =
        ⟨dispatch namada msg, none, 0⟩) ∧
    (msg.method ≠ "connect" → msg.method ≠ "isConnected" →
      (∀ storeGet, (handleMessage namada storeGet ev).reads = 1) ∧
      ∀ got, (got.getD []).contains ev.origin = false →
        (handleMessage namada (Except.ok got) ev).emitted = []) := by
  constructor
  · intro hboot storeGet
    have hb : ¬(msg.method ≠ "connect" ∧ msg.method ≠ "isConnected") := by
      rcases hboot with h | h <;> simp [h]
    simp [handleMessage, hdata, hb]
  · intro hc hic
    constructor
    · intro storeGet
      cases storeGet with
      | error e => simp [handleMessage, hdata, hc, hic]
      | ok got =>
        by_cases hmem : ev.origin ∈ got.getD [] <;>
          simp [handleMessage, hdata, hc, hic, hmem]
    · intro got horig
      have hmem : ev.origin ∉ got.getD [] := by simpa using horig
      simp [handleMessage, hdata, hc, hic, hmem]

/-- Claim C5 witness: `connect` from an origin absent from the store — with
the store get even rejecting — still dispatches, with zero store reads. -/
theorem bootstrap_methods_bypass_gate_witness :
    handleMessage namadaTest (Except.error (JsVal.str "storeDown"))
        ⟨some (InboundData.req ⟨"5", "connect", []⟩), "https://evil.test"⟩ =
      ⟨[⟨ProxyRequestTypes.Response, "5", ⟨some JsVal.undef, none⟩⟩], none, 0⟩ :=
  (bootstrap_methods_bypass_gate namadaTest
      ⟨some (InboundData.req ⟨"5", "connect", []⟩), "https://evil.test"⟩
      ⟨"5", "connect", []⟩ rfl).1 (Or.inl rfl)
    (Except.error (JsVal.str "storeDown"))

/-- Claim C6: every response the listener ever emits has exactly one of
`result.return` and `result.error` populated — never both, never neither. -/
theorem response_result_exactly_one_of_return_error (namada : Namada)
    (storeGet : Except JsVal (Option (List String))) (ev : MessageEvent)
    (r : ProxyRequestResponse)
    (hr : r ∈ (handleMessage namada storeGet ev).emitted) :
    (r.result.ret.isSome = true ∧ r.result.error = none) ∨
    (r.result.ret = none ∧ r.result.error.isSome = true) := by
  rcases ev with ⟨data, origin⟩
  cases data with
  | none => simp [handleMessage] at hr
  | some d =>
    cases d with
    | nonRequest t => simp [handleMessage] at hr
    | req msg =>
      by_cases hb : msg.method ≠ "connect" ∧ msg.method ≠ "isConnected"
      · cases storeGet with
        | error e => simp [handleMessage, hb] at hr
        | ok got =>
          by_cases hmem : origin ∈ got.getD []
          · simp [handleMessage, hb, hmem] at hr
            exact mem_dispatch_exactly_one namada msg r hr
          · simp [handleMessage, hb, hmem] at hr
      · simp [handleMessage, hb] at hr
        exact mem_dispatch_exactly_one namada msg r hr

/-- Claim C6 witness: the `isConnected` success response populates exactly
the `return` field. -/
theorem response_result_exactly_one_witness :
    ((⟨ProxyRequestTypes.Response, "6",
        ⟨some (JsVal.boolean true), none⟩⟩ : ProxyRequestResponse).result.ret.isSome =
        true ∧
      (⟨ProxyRequestTypes.Response, "6",
        ⟨some (JsVal.boolean true), none⟩⟩ : ProxyRequestResponse).result.error =
        none) ∨
    ((⟨ProxyRequestTypes.Response, "6",
        ⟨some (JsVal.boolean true), none⟩⟩ : ProxyRequestResponse).result.ret =
        none ∧
      (⟨ProxyRequestTypes.Response, "6",
        ⟨some (JsVal.boolean true), none⟩⟩ : ProxyRequestResponse).result.error.isSome =
        true) :=
  response_result_exactly_one_of_return_error namadaTest (Except.ok none)
    ⟨some (InboundData.req ⟨"6", "isConnected", []⟩), "https://app.test"⟩
    ⟨ProxyRequestTypes.Response, "6", ⟨some (JsVal.boolean true), none⟩⟩
    (List.Mem.head _)

/-- Claim C8: the approval set is re-read on every non-bootstrap message —
one store read per message, never a cached value — so the same request from
the same origin that is dropped while unapproved is answered once a later
snapshot of the store contains the origin. -/
theorem approval_set_read_fresh_per_message (namada : Namada)
    (ev : MessageEvent) (msg : ProxyRequest) (l0 l1 : List String)
    (f : List JsVal → Except JsVal JsVal) (v : JsVal)
    (hdata : ev.data = some (InboundData.req msg))
    (hc : msg.method ≠ "connect") (hic : msg.method ≠ "isConnected")
    (h0 : l0.contains ev.origin = false)
    (h1 : l1.contains ev.origin = true)
    (hfn : namada msg.method = some (NamadaEntry.fn f))
    (hok : f msg.args = Except.ok v) :
    processSeq namada [(Except.ok (some l0), ev), (Except.ok (some l1), ev)] =
      [⟨[], none, 1⟩,
       ⟨[⟨ProxyRequestTypes.Response, msg.id, ⟨some v, none⟩⟩], none, 1⟩] := by
  have hm0 : ev.origin ∉ l0 := by simpa using h0
  have hm1 : ev.origin ∈ l1 := by simpa using h1
  have hdisp : dispatch namada msg =
      [⟨ProxyRequestTypes.Response, msg.id, ⟨some v, none⟩⟩] := by
    simp [dispatch, hfn, hok]
  simp [processSeq, handleMessage, hdata, hc, hic, hm0, hm1, hdisp]

/-- Claim C8 witness: `queryBalance` is dropped against the first (empty)
store snapshot and answered against the second snapshot that holds the
origin, each message performing its own single store read. -/
theorem approval_set_read_fresh_per_message_witness :
    processSeq namadaTest
      [(Except.ok (some []),
        ⟨some (InboundData.req ⟨"8", "queryBalance", []⟩), "https://app.test"⟩),
       (Except.ok (some ["https://app.test"]),
        ⟨some (InboundData.req ⟨"8", "queryBalance", []⟩), "https://app.test"⟩)] =
      [⟨[], none, 1⟩,
       ⟨[⟨ProxyRequestTypes.Response, "8",
          ⟨some (JsVal.arr [JsVal.arr [JsVal.str "tok1", JsVal.str "100"]]), none⟩⟩],
        none, 1⟩] :=
  approval_set_read_fresh_per_message namadaTest
    ⟨some (InboundData.req ⟨"8", "queryBalance", []⟩), "https://app.test"⟩
    ⟨"8", "queryBalance", []⟩ [] ["https://app.test"]
    (fun _ => Except.ok (JsVal.arr [JsVal.arr [JsVal.str "tok1", JsVal.str "100"]]))
    (JsVal.arr [JsVal.arr [JsVal.str "tok1", JsVal.str "100"]])
    rfl (by decide) (by decide) (by decide) (by decide) rfl rfl
